import Mathlib

/-!
Verification of the tweet-cache and LLM-analysis pipeline of the x-analyser
repository, which exists in two variants: a multi-modal script (Gemini
backend, with media download) and a text-only script (OpenRouter backend).
The definitions below are a shallow embedding of the two Python classes
named TwitterChatAnalyser; external effects (twitter API, HTTP, filesystem)
appear as explicit oracle parameters, and timestamps are integers counting
microseconds (the resolution of Python datetime).
-/

/-- The public-metrics mapping kept for each tweet (the three counters the
scripts actually read). -/
structure Metrics where
  like_count : Nat
  reply_count : Nat
  retweet_count : Nat
deriving DecidableEq, Repr

/-- A normalized post of the multi-modal variant: the dict built in
fetch_tweets of twitter-media-gemini.py, including the list of local media
file paths. -/
structure Tweet where
  id : Nat
  text : String
  created_at : String
  metrics : Metrics
  media : List String
deriving DecidableEq, Repr

/-- A normalized post of the text-only variant (x-analyser-openrouter.py):
same fields but no media list. -/
structure OTweet where
  id : Nat
  text : String
  created_at : String
  metrics : Metrics
deriving DecidableEq, Repr

/-- The parsed content of one on-disk cache file: either unparseable in any
way that raises in Python (bad JSON, missing key, invalid timestamp string),
or a snapshot holding the fetch timestamp and the list of posts.  The type
of the posts is a parameter because the two variants store different
records. -/
inductive CacheFile (α : Type) where
  | malformed
  | snapshot (timestamp : Int) (tweets : List α)
deriving DecidableEq, Repr

/-- timedelta(hours=24) in microseconds. -/
def cacheExpiry : Int := 24 * 60 * 60 * 1000000

/-- Pointwise update of the per-username cache map (one file per
username). -/
def setCache {α : Type} (c : String → Option (CacheFile α)) (u : String)
    (f : Option (CacheFile α)) : String → Option (CacheFile α) :=
  fun v => if v = u then f else c v

namespace Gemini

/-- load_cached_tweets of twitter-media-gemini.py: missing file gives
(None, None); any exception while parsing is caught (warning printed) and
falls through to (None, None); a parsed snapshot is returned only when
datetime.now() - cache_time < timedelta(hours=24). -/
def load_cached_tweets (file : Option (CacheFile Tweet)) (now : Int) :
    Option (List Tweet × Int) :=
  match file with
  | none => none
  | some .malformed => none
  | some (.snapshot ts tweets) =>
      if now - ts < cacheExpiry then some (tweets, ts) else none

end Gemini

namespace Openrouter

/-- load_cached_tweets of x-analyser-openrouter.py: a missing file gives
(None, None) before any parsing, but the json.load / fromisoformat / key
accesses are NOT wrapped in try/except, so a malformed file raises out of
the function.  The freshness test expires the snapshot only when
datetime.now() - cache_time > timedelta(hours=24) (strictly). -/
def load_cached_tweets (file : Option (CacheFile OTweet)) (now : Int) :
    Except String (Option (List OTweet × Int)) :=
  match file with
  | none => .ok none
  | some .malformed => .error "cache file unparseable"
  | some (.snapshot ts tweets) =>
      if now - ts > cacheExpiry then .ok none else .ok (some (tweets, ts))

end Openrouter

/-- Outcome of one tweepy client call: a value, or a raised exception. -/
inductive Net (α : Type) where
  | ok (val : α)
  | exn (msg : String)
deriving DecidableEq, Repr

/-- One media object from the expansion includes, with its optional direct
url and preview url. -/
structure Media where
  url : Option String
  preview_image_url : Option String
deriving DecidableEq, Repr

/-- A raw tweet as returned by get_users_tweets in the multi-modal variant:
attachments is none when the attribute is missing or falsy, otherwise the
list of media keys. -/
structure RawTweet where
  id : Nat
  text : String
  created_at : String
  metrics : Metrics
  attachments : Option (List Nat)
deriving DecidableEq, Repr

/-- The external collaborators of the multi-modal fetch: user lookup, tweet
listing, the media-key lookup built from tweets.includes, and the HTTP
status answered by requests.get on a media url (none = request raised). -/
structure GeminiApi where
  getUser : String → Net (Option Nat)
  getUsersTweets : Nat → Net (List RawTweet)
  mediaLookup : Nat → Option Media
  dl : String → Option Nat

/-- Session state of the multi-modal script: the per-username cache files,
self.tweets and self.username. -/
structure GState where
  cache : String → Option (CacheFile Tweet)
  tweets : List Tweet
  username : Option String

/-- What one fetch_tweets call did: how many network requests it issued
(user lookup, tweet listing and media downloads each count one) and whether
it was served from the cache. -/
structure FetchTrace where
  networkCalls : Nat
  cacheHit : Bool
deriving DecidableEq, Repr

/-- Python truthiness of an optional string: None and the empty string are
falsy. -/
def truthyStr : Option String → Option String
  | none => none
  | some s => if s = "" then none else some s

/-- media.url or media.preview_image_url, then the truthiness test
if media_url: — the url actually downloaded, if any. -/
def effective_url (m : Media) : Option String :=
  match truthyStr m.url with
  | some s => some s
  | none => truthyStr m.preview_image_url

/-- The media urls of one raw tweet that reach download_media: each media
key resolved through the includes lookup, then the effective url. -/
def tweet_media_urls (lookup : Nat → Option Media) (t : RawTweet) : List String :=
  (t.attachments.getD []).filterMap (fun k => (lookup k).bind effective_url)

/-- The local path used by download_media: media_dir / (tweet_id).jpg —
note it depends only on the tweet id, never on which attachment is being
downloaded. -/
def media_path (tweet_id : Nat) : String :=
  "cache/media/" ++ toString tweet_id ++ ".jpg"

/-- download_media of twitter-media-gemini.py, given the HTTP status of the
requests.get call (none = the request raised, caught by its except):
returns the local path on status 200 and None otherwise. -/
def download_media (status : Option Nat) (tweet_id : Nat) : Option String :=
  match status with
  | none => none
  | some code => if code = 200 then some (media_path tweet_id) else none

/-- The per-tweet normalization loop of fetch_tweets: build the Tweet dict,
appending a media path only for attachments whose download succeeded. -/
def normalize_tweet (dl : String → Option Nat) (lookup : Nat → Option Media)
    (t : RawTweet) : Tweet :=
  { id := t.id, text := t.text, created_at := t.created_at,
    metrics := t.metrics,
    media := (tweet_media_urls lookup t).filterMap
      (fun url => download_media (dl url) t.id) }

/-- Number of requests.get calls issued while normalizing one raw tweet. -/
def downloadAttempts (lookup : Nat → Option Media) (t : RawTweet) : Nat :=
  (tweet_media_urls lookup t).length

namespace Gemini

/-- The fresh-fetch part of fetch_tweets (after the cache check): user
lookup, tweet listing, normalization with media downloads, then
save_tweets_to_cache.  Every falsy/exception path returns False and leaves
the cache map untouched; the save (whose own exceptions are swallowed with
a warning) is modelled as succeeding at this level — its byte-level failure
behaviour is modelled separately below. -/
def fetch_fresh (api : GeminiApi) (now : Int) (st : GState) (username : String) :
    Bool × GState × FetchTrace :=
  match api.getUser username with
  | .exn _ => (false, st, ⟨1, false⟩)
  | .ok none => (false, st, ⟨1, false⟩)
  | .ok (some uid) =>
      match api.getUsersTweets uid with
      | .exn _ => (false, st, ⟨2, false⟩)
      | .ok raws =>
          if raws.isEmpty then (false, st, ⟨2, false⟩)
          else
            let tweets := raws.map (normalize_tweet api.dl api.mediaLookup)
            (true,
             { st with tweets := tweets,
                       cache := setCache st.cache username
                         (some (.snapshot now tweets)) },
             ⟨2 + (raws.map (downloadAttempts api.mediaLookup)).sum, false⟩)

/-- fetch_tweets of twitter-media-gemini.py.  It first records
self.username = username, then (unless force_refresh) consults the cache;
a hit requires the cached list to be truthy (non-empty). -/
def fetch_tweets (api : GeminiApi) (now : Int) (st : GState) (username : String)
    (force_refresh : Bool) : Bool × GState × FetchTrace :=
  let st0 : GState := { st with username := some username }
  match (if force_refresh then none else load_cached_tweets (st0.cache username) now) with
  | some (ct, _ctime) =>
      if ct.isEmpty then fetch_fresh api now st0 username
      else (true, { st0 with tweets := ct }, ⟨0, true⟩)
  | none => fetch_fresh api now st0 username

/-- clear_cache of twitter-media-gemini.py: deletes the snapshot file when
it exists (best-effort unlinking of the media files is outside this model),
returning whether a file was removed. -/
def clear_cache (st : GState) (username : String) : Bool × GState :=
  match st.cache username with
  | none => (false, st)
  | some _ => (true, { st with cache := setCache st.cache username none })

/-- refresh_tweets of twitter-media-gemini.py: requires a selected
username, then clears the cache FIRST and only afterwards fetches with
force_refresh=True. -/
def refresh_tweets (api : GeminiApi) (now : Int) (st : GState) :
    Bool × GState × FetchTrace :=
  match st.username with
  | none => (false, st, ⟨0, false⟩)
  | some u => fetch_tweets api now (clear_cache st u).2 u true

end Gemini

/-- The external collaborators of the text-only fetch. -/
structure ORApi where
  getUser : String → Net (Option Nat)
  getUsersTweets : Nat → Net (List OTweet)

/-- Session state of the text-only script (self.username is set by the
caller after a successful fetch and plays no role in fetching). -/
structure OState where
  cache : String → Option (CacheFile OTweet)
  tweets : List OTweet

namespace Openrouter

/-- The fresh-fetch part of the text-only fetch_tweets. -/
def fetch_fresh (api : ORApi) (now : Int) (st : OState) (username : String) :
    Bool × OState × FetchTrace :=
  match api.getUser username with
  | .exn _ => (false, st, ⟨1, false⟩)
  | .ok none => (false, st, ⟨1, false⟩)
  | .ok (some uid) =>
      match api.getUsersTweets uid with
      | .exn _ => (false, st, ⟨2, false⟩)
      | .ok raws =>
          if raws.isEmpty then (false, st, ⟨2, false⟩)
          else (true,
                { st with tweets := raws,
                          cache := setCache st.cache username
                            (some (.snapshot now raws)) },
                ⟨2, false⟩)

/-- fetch_tweets of x-analyser-openrouter.py.  The load_cached_tweets call
sits OUTSIDE the try block, so an exception raised there propagates out of
fetch_tweets; hence the Except result. -/
def fetch_tweets (api : ORApi) (now : Int) (st : OState) (username : String) :
    Except String (Bool × OState × FetchTrace) :=
  match load_cached_tweets (st.cache username) now with
  | .error e => .error e
  | .ok (some (ct, _ctime)) =>
      if ct.isEmpty then .ok (fetch_fresh api now st username)
      else .ok (true, { st with tweets := ct }, ⟨0, true⟩)
  | .ok none => .ok (fetch_fresh api now st username)

end Openrouter

/-- The request the multi-modal backend receives: one prompt string and the
ordered list of successfully loaded images (identified here by their file
path). -/
structure GeminiRequest where
  prompt : String
  images : List String
deriving DecidableEq, Repr

/-- The triple-quoted f-string opening the Gemini prompt, whitespace as in
the source. -/
def gemini_prompt_header (username question : String) : String :=
  "Analyze these tweets from @" ++ username ++ " to answer: " ++ question ++
  "\n            \nPlease provide a clear and concise analysis considering both the text content and any images present.\n\nTweets:\n"

/-- The two lines appended to the prompt for each tweet. -/
def tweet_block (t : Tweet) : String :=
  "\nText: " ++ t.text ++ "\n" ++
  "Metrics: " ++ toString t.metrics.like_count ++ " likes, " ++
  toString t.metrics.reply_count ++ " replies, " ++
  toString t.metrics.retweet_count ++ " retweets\n"

/-- The full Gemini prompt: header then one block per tweet, in order. -/
def build_prompt (username : String) (tweets : List Tweet) (question : String) :
    String :=
  gemini_prompt_header username question ++ String.join (tweets.map tweet_block)

/-- The image list accumulated across all tweets: every media path whose
load_image succeeded (fs is the PIL-open oracle; none = load failed, the
image is skipped with a warning). -/
def gemini_images (fs : String → Option String) (tweets : List Tweet) :
    List String :=
  (tweets.map (fun t => t.media.filterMap fs)).flatten

namespace Gemini

/-- analyse_with_gemini of twitter-media-gemini.py, reduced to what it does
before the response handling: on an empty tweet list it prints a warning
and returns without building anything; otherwise it builds the prompt and
images and calls generate_content exactly once (a single call whether the
image list is empty or not).  Result: number of backend invocations and
the request that was sent, if any. -/
def analyse_with_gemini (fs : String → Option String) (username question : String)
    (tweets : List Tweet) : Nat × Option GeminiRequest :=
  if tweets.isEmpty then (0, none)
  else (1, some ⟨build_prompt username tweets question, gemini_images fs tweets⟩)

end Gemini

/-- One chat message of the OpenRouter payload. -/
structure ORMessage where
  role : String
  content : String
deriving DecidableEq, Repr

/-- The JSON body posted to the chat-completions endpoint.  The sampling
temperature is the constant literal 0.7, recorded here as its decimal
text. -/
structure ORPayload where
  model : String
  messages : List ORMessage
  temperature : String
  max_tokens : Nat
deriving DecidableEq, Repr

/-- Outcome of the requests.post call: a raised exception, or a response
with status code and body text. -/
inductive HttpResult where
  | exn (msg : String)
  | resp (status : Nat) (body : String)
deriving DecidableEq, Repr

/-- What analyse_with_openrouter leaves the session with. -/
inductive ORResult where
  | noTweets
  | analysis (content : String)
  | httpError (status : Nat) (body : String)
  | err (msg : String)
deriving DecidableEq, Repr

/-- JSON string escaping as json.dump performs it for the characters that
occur here: quote, backslash and the common control characters become
two-character escapes, everything else passes through. -/
def escChar (c : Char) : List Char :=
  if c = '"' then ['\\', '"']
  else if c = '\\' then ['\\', '\\']
  else if c = '\n' then ['\\', 'n']
  else if c = '\t' then ['\\', 't']
  else if c = '\r' then ['\\', 'r']
  else [c]

/-- A JSON string literal: opening quote, escaped body, closing quote. -/
def jStr (s : String) : List Char :=
  '"' :: (s.data.map escChar).flatten ++ ['"']

/-- Decimal digits of a natural number, most significant first (the JSON
rendering of the integer ids and counters). -/
def natChars (n : Nat) : List Char :=
  if n < 10 then [Nat.digitChar n]
  else natChars (n / 10) ++ [Nat.digitChar (n % 10)]
decreasing_by exact Nat.div_lt_self (by omega) (by omega)

/-- The item separator json.dump emits by default. -/
def commaSep : List Char := [',', ' ']

/-- The key-value separator json.dump emits by default. -/
def colonSep : List Char := [':', ' ']

/-- Join a list of serialized items with a separator, as str.join does. -/
def joinSep (sep : List Char) : List (List Char) → List Char
  | [] => []
  | [x] => x
  | x :: xs => x ++ sep ++ joinSep sep xs

/-- Wrap a serialized object body in curly braces. -/
def inBraces (w : List Char) : List Char := '{' :: w ++ ['}']

/-- Wrap a serialized array body in square brackets. -/
def inBrackets (w : List Char) : List Char := '[' :: w ++ [']']

/-- One key-value pair of a JSON object. -/
def jField (k : String) (v : List Char) : List Char := jStr k ++ colonSep ++ v

/-- JSON rendering of the metrics dict (insertion order of the model). -/
def jMetrics (m : Metrics) : List Char :=
  inBraces (joinSep commaSep
    [jField "like_count" (natChars m.like_count),
     jField "reply_count" (natChars m.reply_count),
     jField "retweet_count" (natChars m.retweet_count)])

/-- JSON rendering of one multi-modal tweet dict, keys in insertion
order. -/
def jTweet (t : Tweet) : List Char :=
  inBraces (joinSep commaSep
    [jField "id" (natChars t.id),
     jField "text" (jStr t.text),
     jField "created_at" (jStr t.created_at),
     jField "metrics" (jMetrics t.metrics),
     jField "media" (inBrackets (joinSep commaSep (t.media.map jStr)))])

/-- JSON rendering of one text-only tweet dict. -/
def jOTweet (t : OTweet) : List Char :=
  inBraces (joinSep commaSep
    [jField "id" (natChars t.id),
     jField "text" (jStr t.text),
     jField "created_at" (jStr t.created_at),
     jField "metrics" (jMetrics t.metrics)])

/-- json.dumps of the tweet list embedded in the OpenRouter user message
(indentation whitespace abstracted away; the rendering is still a fixed
function of the list). -/
def oTweetsJson (tweets : List OTweet) : String :=
  String.mk (inBrackets (joinSep commaSep (tweets.map jOTweet)))

/-- The two-message exchange built by analyse_with_openrouter. -/
def openrouter_messages (username question : String) (tweets : List OTweet) :
    List ORMessage :=
  [⟨"system",
    "You are analyzing Twitter/X user activity. Focus on key patterns in behavior, interests, and communication style. Provide concise, data-driven insights based only on the provided tweets."⟩,
   ⟨"user",
    "Based on these tweets from @" ++ username ++ ", " ++ question ++
      "\n\nTweets:\n" ++ oTweetsJson tweets⟩]

/-- The full JSON body of the chat-completions request. -/
def build_openrouter_payload (modelName username question : String)
    (tweets : List OTweet) : ORPayload :=
  ⟨modelName, openrouter_messages username question tweets, "0.7", 1000⟩

namespace Openrouter

/-- analyse_with_openrouter of x-analyser-openrouter.py.  pj is the oracle
extracting response.json() choices[0].message.content from the body (none
when any step of that chain raises — caught by the surrounding except).
On an empty tweet list the function warns and returns before building or
posting anything; otherwise requests.post runs exactly once and a non-200
status is reported with its code and body text. -/
def analyse_with_openrouter (pj : String → Option String)
    (modelName username question : String) (tweets : List OTweet)
    (http : HttpResult) : Nat × Option ORPayload × ORResult :=
  if tweets.isEmpty then (0, none, .noTweets)
  else
    (1, some (build_openrouter_payload modelName username question tweets),
     match http with
     | .exn m => .err m
     | .resp status body =>
         if status = 200 then
           match pj body with
           | some content => .analysis content
           | none => .err "malformed response"
         else .httpError status body)

end Openrouter

/-- The bytes json.dump writes for the gemini cache file: an object with
the timestamp string first and the tweets array second. -/
def serializeCache (ts : String) (tweets : List Tweet) : List Char :=
  inBraces (joinSep commaSep
    [jField "timestamp" (jStr ts),
     jField "tweets" (inBrackets (joinSep commaSep (tweets.map jTweet)))])

namespace Gemini

/-- Byte-level model of save_tweets_to_cache of twitter-media-gemini.py:
open(cache_file, 'w') truncates the file in place and json.dump then
writes the serialization sequentially, so the file afterwards holds the
full serialization when the write completed, and only its first k bytes
when the write failed after k bytes (the exception itself is caught and
only warned about).  There is no temp-file-and-rename step. -/
def save_tweets_to_cache_bytes (ts : String) (tweets : List Tweet)
    (failAfter : Option Nat) : List Char :=
  match failAfter with
  | none => serializeCache ts tweets
  | some k => (serializeCache ts tweets).take k

end Gemini

/-- State of the character scanner that decides whether a byte string is a
complete JSON document: inside a string literal or not, immediately after
a backslash escape or not, and the current brace/bracket depth. -/
structure ScanSt where
  inStr : Bool
  esc : Bool
  depth : Nat
deriving DecidableEq, Repr

/-- The scanner state before the first byte. -/
def scanInit : ScanSt := ⟨false, false, 0⟩

/-- One step of the JSON completeness scanner. -/
def scan1 (s : ScanSt) (c : Char) : ScanSt :=
  if s.esc then ⟨s.inStr, false, s.depth⟩
  else if s.inStr then
    if c = '\\' then ⟨true, true, s.depth⟩
    else if c = '"' then ⟨false, false, s.depth⟩
    else s
  else if c = '"' then ⟨true, false, s.depth⟩
  else if c = '{' ∨ c = '[' then ⟨false, false, s.depth + 1⟩
  else if c = '}' ∨ c = ']' then ⟨false, false, s.depth - 1⟩
  else s

/-- Run the scanner over a byte string. -/
def scanL (s : ScanSt) (w : List Char) : ScanSt := w.foldl scan1 s

/-- Whether json.load can possibly accept the byte string as a complete
document: it is non-empty, ends outside every string literal and escape,
and its braces and brackets are back to depth zero.  json.load raises on
every string this rejects, which is all a truncated serialization needs. -/
def jsonComplete (w : List Char) : Bool :=
  !w.isEmpty && (scanL scanInit w == scanInit)

/-- A byte string scanned from outside any string literal at depth d ends
in exactly that state again. -/
def NeutralEnd (w : List Char) : Prop :=
  ∀ d, scanL ⟨false, false, d⟩ w = ⟨false, false, d⟩

/-- While scanning such a byte string, the depth never drops below the
starting depth. -/
def NeutralMid (w : List Char) : Prop :=
  ∀ d k, d ≤ (scanL ⟨false, false, d⟩ (w.take k)).depth

/-- A well-bracketed serialization fragment: scanning it from outside any
string literal returns to the starting state and never dips below the
starting depth. -/
def Neutral (w : List Char) : Prop := NeutralEnd w ∧ NeutralMid w

/-- A byte string scanned from inside a string literal stays inside it and
ends where it started. -/
def StrBodyEnd (w : List Char) : Prop :=
  ∀ d, scanL ⟨true, false, d⟩ w = ⟨true, false, d⟩

/-- While scanning such a byte string the depth never changes. -/
def StrBodyMid (w : List Char) : Prop :=
  ∀ d k, (scanL ⟨true, false, d⟩ (w.take k)).depth = d

/-- A well-escaped string-literal body. -/
def StrBody (w : List Char) : Prop := StrBodyEnd w ∧ StrBodyMid w

/-- A character that the scanner passes over without any state change
outside string literals. -/
def PlainC (c : Char) : Prop :=
  c ≠ '"' ∧ c ≠ '{' ∧ c ≠ '[' ∧ c ≠ '}' ∧ c ≠ ']'

instance (c : Char) : Decidable (PlainC c) :=
  inferInstanceAs (Decidable (_ ∧ _ ∧ _ ∧ _ ∧ _))

/-! Concrete fixtures used by the witness and counterexample theorems. -/

/-- A sample multi-modal tweet. -/
def tweetA : Tweet := ⟨1, "hello", "2024-01-01", ⟨1, 2, 3⟩, []⟩

/-- A sample text-only tweet. -/
def otweetA : OTweet := ⟨1, "hello", "2024-01-01", ⟨1, 2, 3⟩⟩

/-- A sample raw tweet without attachments. -/
def rawA : RawTweet := ⟨1, "hello", "2024-01-01", ⟨1, 2, 3⟩, none⟩

/-- A multi-modal api in which both lookups succeed and return rawA. -/
def apiOkG : GeminiApi :=
  ⟨fun _ => .ok (some 5), fun _ => .ok [rawA], fun _ => none, fun _ => none⟩

/-- A text-only api in which both lookups succeed and return otweetA. -/
def apiOkO : ORApi := ⟨fun _ => .ok (some 5), fun _ => .ok [otweetA]⟩

/-- A multi-modal api in which every network call raises. -/
def apiExnG : GeminiApi :=
  ⟨fun _ => .exn "boom", fun _ => .exn "boom", fun _ => none, fun _ => none⟩

/-- A text-only api in which every network call raises. -/
def apiExnO : ORApi := ⟨fun _ => .exn "boom", fun _ => .exn "boom"⟩

/-- Multi-modal session state with no cache files. -/
def emptyG : GState := ⟨fun _ => none, [], none⟩

/-- Text-only session state with no cache files. -/
def emptyO : OState := ⟨fun _ => none, []⟩

/-- Multi-modal session state for user u holding a valid prior snapshot. -/
def stSnapG : GState :=
  ⟨setCache (fun _ => none) "u" (some (.snapshot 0 [tweetA])), [tweetA], some "u"⟩

/-- Media-key lookup of the three-tweet download-failure scenario: key 1
resolves to a url that downloads fine, key 2 to one answered with 500. -/
def lookupC6 : Nat → Option Media := fun k =>
  if k = 1 then some ⟨some "http-ok", none⟩
  else if k = 2 then some ⟨some "http-bad", none⟩
  else none

/-- Download oracle of that scenario. -/
def dlC6 : String → Option Nat := fun url => if url = "http-ok" then some 200 else some 500

/-- The three raw tweets of the scenario: the second one's only media
download fails. -/
def rawsC6 : List RawTweet :=
  [⟨1, "a", "d1", ⟨0, 0, 0⟩, some [1]⟩,
   ⟨2, "b", "d2", ⟨0, 0, 0⟩, some [2]⟩,
   ⟨3, "c", "d3", ⟨0, 0, 0⟩, none⟩]

/-- The api of the three-tweet scenario. -/
def apiC6 : GeminiApi := ⟨fun _ => .ok (some 9), fun _ => .ok rawsC6, lookupC6, dlC6⟩

/-- A raw tweet with two attachments whose downloads both succeed. -/
def rawC10 : RawTweet := ⟨7, "t", "d", ⟨0, 0, 0⟩, some [1, 2]⟩

/-- Lookup resolving the two attachments of rawC10 to distinct urls. -/
def lookupC10 : Nat → Option Media := fun k =>
  if k = 1 then some ⟨some "u1", none⟩
  else if k = 2 then some ⟨some "u2", none⟩
  else none

/-- Download oracle answering 200 to everything. -/
def dlAll200 : String → Option Nat := fun _ => some 200

/-- The text-only session state after a first successful fetch of otweetA
for user u at time 0. -/
def stoW : OState :=
  ⟨setCache (fun _ => none) "u" (some (.snapshot 0 [otweetA])), [otweetA]⟩

/-! Helper lemmas. -/

theorem setCache_same {α : Type} (c : String → Option (CacheFile α)) (u : String)
    (f : Option (CacheFile α)) : setCache c u f u = f := by
  simp [setCache]

theorem fetch_fresh_state_of_false (api : GeminiApi) (now : Int) (st : GState)
    (u : String) (h : (Gemini.fetch_fresh api now st u).1 = false) :
    (Gemini.fetch_fresh api now st u).2.1 = st := by
  cases hg : api.getUser u with
  | exn m => simp [Gemini.fetch_fresh, hg]
  | ok vo =>
    cases vo with
    | none => simp [Gemini.fetch_fresh, hg]
    | some uid =>
      cases hw : api.getUsersTweets uid with
      | exn m => simp [Gemini.fetch_fresh, hg, hw]
      | ok raws =>
        by_cases hr : raws.isEmpty
        · simp [Gemini.fetch_fresh, hg, hw, hr]
        · simp [Gemini.fetch_fresh, hg, hw, hr] at h

theorem fetch_unfold_fresh (api : GeminiApi) (now : Int) (st : GState)
    (u : String) (fr : Bool)
    (hmiss : fr = true ∨ Gemini.load_cached_tweets (st.cache u) now = none ∨
      ∃ tm, Gemini.load_cached_tweets (st.cache u) now = some ([], tm)) :
    Gemini.fetch_tweets api now st u fr
      = Gemini.fetch_fresh api now { st with username := some u } u := by
  rcases hmiss with hfr | hload | ⟨tm, hload⟩
  · simp [Gemini.fetch_tweets, hfr]
  · cases fr <;> simp [Gemini.fetch_tweets, hload]
  · cases fr <;> simp [Gemini.fetch_tweets, hload]

theorem fetch_unfold_hit (api : GeminiApi) (now : Int) (st : GState)
    (u : String) (ct : List Tweet) (tm : Int)
    (hload : Gemini.load_cached_tweets (st.cache u) now = some (ct, tm))
    (hne : ct.isEmpty = false) :
    Gemini.fetch_tweets api now st u false
      = (true, { st with username := some u, tweets := ct }, ⟨0, true⟩) := by
  simp [Gemini.fetch_tweets, hload, hne]

theorem fetch_frame_of_false (api : GeminiApi) (now : Int) (st : GState)
    (u : String) (fr : Bool)
    (h : (Gemini.fetch_tweets api now st u fr).1 = false) :
    (Gemini.fetch_tweets api now st u fr).2.1.cache = st.cache := by
  cases fr with
  | true =>
    rw [fetch_unfold_fresh api now st u true (Or.inl rfl)] at h ⊢
    rw [fetch_fresh_state_of_false _ _ _ _ h]
  | false =>
    cases hload : Gemini.load_cached_tweets (st.cache u) now with
    | none =>
      rw [fetch_unfold_fresh api now st u false (Or.inr (Or.inl hload))] at h ⊢
      rw [fetch_fresh_state_of_false _ _ _ _ h]
    | some p =>
      obtain ⟨ct, tm⟩ := p
      cases hc : ct.isEmpty with
      | true =>
        have hct : ct = [] := List.isEmpty_iff.mp hc
        subst hct
        rw [fetch_unfold_fresh api now st u false (Or.inr (Or.inr ⟨tm, hload⟩))] at h ⊢
        rw [fetch_fresh_state_of_false _ _ _ _ h]
      | false =>
        rw [fetch_unfold_hit api now st u ct tm hload hc] at h
        simp at h

theorem ofetch_fresh_state_of_false (api : ORApi) (now : Int) (st : OState)
    (u : String) (h : (Openrouter.fetch_fresh api now st u).1 = false) :
    (Openrouter.fetch_fresh api now st u).2.1 = st := by
  cases hg : api.getUser u with
  | exn m => simp [Openrouter.fetch_fresh, hg]
  | ok vo =>
    cases vo with
    | none => simp [Openrouter.fetch_fresh, hg]
    | some uid =>
      cases hw : api.getUsersTweets uid with
      | exn m => simp [Openrouter.fetch_fresh, hg, hw]
      | ok raws =>
        by_cases hr : raws.isEmpty
        · simp [Openrouter.fetch_fresh, hg, hw, hr]
        · simp [Openrouter.fetch_fresh, hg, hw, hr] at h

theorem fetch_fresh_congr (api : GeminiApi) (now : Int) (u : String)
    (st1 st2 : GState) (ht : st1.tweets = st2.tweets) :
    (Gemini.fetch_fresh api now st1 u).1 = (Gemini.fetch_fresh api now st2 u).1 ∧
    (Gemini.fetch_fresh api now st1 u).2.1.tweets
      = (Gemini.fetch_fresh api now st2 u).2.1.tweets ∧
    (Gemini.fetch_fresh api now st1 u).2.2 = (Gemini.fetch_fresh api now st2 u).2.2 := by
  cases hg : api.getUser u with
  | exn m => simp [Gemini.fetch_fresh, hg, ht]
  | ok vo =>
    cases vo with
    | none => simp [Gemini.fetch_fresh, hg, ht]
    | some uid =>
      cases hw : api.getUsersTweets uid with
      | exn m => simp [Gemini.fetch_fresh, hg, hw, ht]
      | ok raws =>
        by_cases hr : raws.isEmpty <;> simp [Gemini.fetch_fresh, hg, hw, hr, ht]

/-! Claim theorems. -/

/-- C2: a syntactically valid snapshot whose timestamp is at least 24 hours
old is absent for the multi-modal load, but the text-only load only expires
it when it is strictly older than 24 hours (amended statement; the
counterexample below shows the boundary case). -/
theorem C2_expired_snapshot_absent (tg tOld now : Int) (twg : List Tweet)
    (two : List OTweet) (hg : cacheExpiry ≤ now - tg)
    (ho : cacheExpiry < now - tOld) :
    Gemini.load_cached_tweets (some (.snapshot tg twg)) now = none ∧
    Openrouter.load_cached_tweets (some (.snapshot tOld two)) now = .ok none := by
  constructor
  · simp [Gemini.load_cached_tweets, not_lt.mpr hg]
  · simp [Openrouter.load_cached_tweets, ho]

/-- C2 witness: the theorem applied at a snapshot aged exactly 24 hours
(multi-modal) and one aged just over 24 hours (text-only). -/
theorem C2_witness :
    Gemini.load_cached_tweets (some (.snapshot 0 [tweetA])) cacheExpiry = none ∧
    Openrouter.load_cached_tweets (some (.snapshot (-1) [otweetA])) cacheExpiry
      = .ok none :=
  C2_expired_snapshot_absent 0 (-1) cacheExpiry [tweetA] [otweetA]
    (by norm_num [cacheExpiry]) (by norm_num [cacheExpiry])

/-- C2 counterexample: the text-only load serves a snapshot whose
fetched-at timestamp is exactly 24 hours old, although the claim demands
absent for every age of 24 hours or more. -/
theorem C2_counterexample :
    Openrouter.load_cached_tweets (some (.snapshot 0 [otweetA])) cacheExpiry
      = .ok (some ([otweetA], 0)) ∧
    Openrouter.load_cached_tweets (some (.snapshot 0 [otweetA])) cacheExpiry
      ≠ .ok none := by
  have h : Openrouter.load_cached_tweets (some (.snapshot 0 [otweetA])) cacheExpiry
      = .ok (some ([otweetA], 0)) := by
    simp [Openrouter.load_cached_tweets]
  exact ⟨h, by rw [h]; simp⟩

/-- C3: a malformed cache file is treated as a silent miss by the
multi-modal load (no exception, the caller proceeds exactly as on a missing
file), but the text-only load has no exception handler and raises
(amended statement). -/
theorem C3_malformed_cache (now : Int) (api : GeminiApi) (st : GState) (u : String) :
    Gemini.load_cached_tweets (some .malformed) now = none ∧
    Openrouter.load_cached_tweets (some .malformed) now
      = .error "cache file unparseable" ∧
    (Gemini.fetch_tweets api now
        { st with cache := setCache st.cache u (some .malformed) } u false).1
      = (Gemini.fetch_tweets api now
        { st with cache := setCache st.cache u none } u false).1 ∧
    (Gemini.fetch_tweets api now
        { st with cache := setCache st.cache u (some .malformed) } u false).2.1.tweets
      = (Gemini.fetch_tweets api now
        { st with cache := setCache st.cache u none } u false).2.1.tweets := by
  refine ⟨rfl, rfl, ?_, ?_⟩ <;>
  · have hcongr := fetch_fresh_congr api now u
      { st with cache := setCache st.cache u (some .malformed), username := some u }
      { st with cache := setCache st.cache u none, username := some u } rfl
    simp only [Gemini.fetch_tweets, setCache_same, Gemini.load_cached_tweets]
    first
    | exact hcongr.1
    | exact hcongr.2.1

/-- C3 counterexample: at a concrete malformed file the text-only load
raises instead of returning absent, and the exception escapes fetch_tweets
as well because the load call sits outside its try block. -/
theorem C3_counterexample :
    Openrouter.load_cached_tweets (some .malformed) 0
      = .error "cache file unparseable" ∧
    Openrouter.load_cached_tweets (some .malformed) 0 ≠ .ok none ∧
    Openrouter.fetch_tweets apiExnO 0 ⟨fun _ => some .malformed, []⟩ "u"
      = .error "cache file unparseable" := by
  exact ⟨rfl, by simp [Openrouter.load_cached_tweets], rfl⟩

/-- C1: starting from no cache file for username u, if a first fetch at
time now0 succeeds, then a second fetch at time now1 within 24 hours and
without force refresh performs zero network calls, is a recorded cache hit,
and returns the very same session state — in particular the identical post
collection — in both variants. -/
theorem C1_second_fetch_is_cache_hit
    (apig : GeminiApi) (apio : ORApi) (stg : GState) (sto : OState)
    (sto1 : OState) (tro : FetchTrace) (u : String) (now0 now1 : Int)
    (hg0 : stg.cache u = none)
    (hg1 : (Gemini.fetch_tweets apig now0 stg u false).1 = true)
    (ho0 : sto.cache u = none)
    (ho1 : Openrouter.fetch_tweets apio now0 sto u = .ok (true, sto1, tro))
    (ht1 : now1 - now0 < cacheExpiry) :
    Gemini.fetch_tweets apig now1
        (Gemini.fetch_tweets apig now0 stg u false).2.1 u false
      = (true, (Gemini.fetch_tweets apig now0 stg u false).2.1, ⟨0, true⟩) ∧
    Openrouter.fetch_tweets apio now1 sto1 u = .ok (true, sto1, ⟨0, true⟩) := by
  constructor
  · have hunf := fetch_unfold_fresh apig now0 stg u false
      (Or.inr (Or.inl (by rw [hg0]; rfl)))
    rw [hunf] at hg1 ⊢
    cases hgu : apig.getUser u with
    | exn m => simp [Gemini.fetch_fresh, hgu] at hg1
    | ok vo =>
      cases vo with
      | none => simp [Gemini.fetch_fresh, hgu] at hg1
      | some uid =>
        cases hgt : apig.getUsersTweets uid with
        | exn m => simp [Gemini.fetch_fresh, hgu, hgt] at hg1
        | ok raws =>
          cases hr : raws.isEmpty with
          | true => simp [Gemini.fetch_fresh, hgu, hgt, hr] at hg1
          | false =>
            have hres : Gemini.fetch_fresh apig now0
                { stg with username := some u } u
                = (true,
                   { cache := setCache stg.cache u (some (.snapshot now0
                       (raws.map (normalize_tweet apig.dl apig.mediaLookup)))),
                     tweets := raws.map (normalize_tweet apig.dl apig.mediaLookup),
                     username := some u },
                   ⟨2 + (raws.map (downloadAttempts apig.mediaLookup)).sum,
                    false⟩) := by
              simp [Gemini.fetch_fresh, hgu, hgt, hr]
            rw [hres]
            have hTne : (raws.map (normalize_tweet apig.dl apig.mediaLookup)).isEmpty
                = false := by
              cases raws with
              | nil => simp at hr
              | cons a l => rfl
            have hload : Gemini.load_cached_tweets
                ((setCache stg.cache u (some (.snapshot now0
                  (raws.map (normalize_tweet apig.dl apig.mediaLookup))))) u) now1
                = some (raws.map (normalize_tweet apig.dl apig.mediaLookup), now0) := by
              rw [setCache_same]
              simp [Gemini.load_cached_tweets, ht1]
            rw [fetch_unfold_hit _ _ _ _ _ _ hload hTne]
  · have hunf : Openrouter.fetch_tweets apio now0 sto u
        = .ok (Openrouter.fetch_fresh apio now0 sto u) := by
      simp [Openrouter.fetch_tweets, ho0, Openrouter.load_cached_tweets]
    rw [hunf] at ho1
    have hfres := Except.ok.inj ho1
    cases hgu : apio.getUser u with
    | exn m => simp [Openrouter.fetch_fresh, hgu] at hfres
    | ok vo =>
      cases vo with
      | none => simp [Openrouter.fetch_fresh, hgu] at hfres
      | some uid =>
        cases hgt : apio.getUsersTweets uid with
        | exn m => simp [Openrouter.fetch_fresh, hgu, hgt] at hfres
        | ok raws =>
          cases hr : raws.isEmpty with
          | true => simp [Openrouter.fetch_fresh, hgu, hgt, hr] at hfres
          | false =>
            have hres : Openrouter.fetch_fresh apio now0 sto u
                = (true,
                   { cache := setCache sto.cache u (some (.snapshot now0 raws)),
                     tweets := raws },
                   ⟨2, false⟩) := by
              simp [Openrouter.fetch_fresh, hgu, hgt, hr]
            rw [hres] at hfres
            rw [Prod.mk.injEq, Prod.mk.injEq] at hfres
            obtain ⟨-, hst, -⟩ := hfres
            subst hst
            have hload : Openrouter.load_cached_tweets
                ((setCache sto.cache u (some (.snapshot now0 raws))) u) now1
                = .ok (some (raws, now0)) := by
              rw [setCache_same]
              simp [Openrouter.load_cached_tweets, not_lt.mpr (le_of_lt ht1)]
            simp [Openrouter.fetch_tweets, hload, hr]

/-- C1 witness: the theorem applied to a concrete api that returns one
tweet, with the first fetch at time 0 and the second at time 1. -/
theorem C1_witness :
    Gemini.fetch_tweets apiOkG 1
        (Gemini.fetch_tweets apiOkG 0 emptyG "u" false).2.1 "u" false
      = (true, (Gemini.fetch_tweets apiOkG 0 emptyG "u" false).2.1, ⟨0, true⟩) ∧
    Openrouter.fetch_tweets apiOkO 1 stoW "u" = .ok (true, stoW, ⟨0, true⟩) :=
  C1_second_fetch_is_cache_hit apiOkG apiOkO emptyG emptyO stoW ⟨2, false⟩
    "u" 0 1 rfl rfl rfl rfl (by norm_num [cacheExpiry])

/-- C5 (amended): a fetch that fails — for any reason, including a
network/API exception — leaves the on-disk cache untouched in both
variants; but the forced-refresh flow of the multi-modal script clears the
prior snapshot BEFORE fetching, so when the network then raises, the user's
previously stored snapshot is gone rather than untouched. -/
theorem C5_network_failure_frame
    (apig : GeminiApi) (apio : ORApi) (stg : GState) (sto : OState)
    (u e : String) (now : Int) (fr : Bool) (f : CacheFile Tweet)
    (ro : Bool × OState × FetchTrace)
    (hgf : (Gemini.fetch_tweets apig now stg u fr).1 = false)
    (hof : Openrouter.fetch_tweets apio now sto u = .ok ro)
    (hro : ro.1 = false)
    (hu : stg.username = some u)
    (hc : stg.cache u = some f)
    (hx : apig.getUser u = .exn e) :
    (Gemini.fetch_tweets apig now stg u fr).2.1.cache = stg.cache ∧
    ro.2.1.cache = sto.cache ∧
    (Gemini.refresh_tweets apig now stg).1 = false ∧
    (Gemini.refresh_tweets apig now stg).2.1.cache u = none := by
  have hclear : Gemini.clear_cache stg u
      = (true, { stg with cache := setCache stg.cache u none }) := by
    simp [Gemini.clear_cache, hc]
  have hrunf : Gemini.refresh_tweets apig now stg
      = Gemini.fetch_tweets apig now
          { stg with cache := setCache stg.cache u none } u true := by
    simp [Gemini.refresh_tweets, hu, hclear]
  have hfunf : Gemini.fetch_tweets apig now
      { stg with cache := setCache stg.cache u none } u true
      = Gemini.fetch_fresh apig now
          { stg with cache := setCache stg.cache u none, username := some u } u :=
    fetch_unfold_fresh _ _ _ _ true (Or.inl rfl)
  refine ⟨fetch_frame_of_false _ _ _ _ _ hgf, ?_, ?_, ?_⟩
  · cases hload : Openrouter.load_cached_tweets (sto.cache u) now with
    | error e2 => simp [Openrouter.fetch_tweets, hload] at hof
    | ok o =>
      cases o with
      | none =>
        simp [Openrouter.fetch_tweets, hload] at hof
        rw [← hof] at hro ⊢
        rw [ofetch_fresh_state_of_false _ _ _ _ hro]
      | some p =>
        obtain ⟨ct, tm⟩ := p
        cases hce : ct.isEmpty with
        | true =>
          simp [Openrouter.fetch_tweets, hload, hce] at hof
          rw [← hof] at hro ⊢
          rw [ofetch_fresh_state_of_false _ _ _ _ hro]
        | false =>
          simp [Openrouter.fetch_tweets, hload, hce] at hof
          rw [← hof] at hro
          simp at hro
  · rw [hrunf, hfunf]
    simp [Gemini.fetch_fresh, hx]
  · rw [hrunf, hfunf]
    simp [Gemini.fetch_fresh, hx, setCache_same]

/-- C5 witness: the theorem applied to an api whose user lookup raises,
with a prior valid snapshot stored for user u. -/
theorem C5_witness :
    (Gemini.fetch_tweets apiExnG 0 stSnapG "u" true).2.1.cache = stSnapG.cache ∧
    ((false, emptyO, (⟨1, false⟩ : FetchTrace))).2.1.cache = emptyO.cache ∧
    (Gemini.refresh_tweets apiExnG 0 stSnapG).1 = false ∧
    (Gemini.refresh_tweets apiExnG 0 stSnapG).2.1.cache "u" = none :=
  C5_network_failure_frame apiExnG apiExnO stSnapG emptyO "u" "boom" 0 true
    (.snapshot 0 [tweetA]) (false, emptyO, ⟨1, false⟩)
    rfl rfl rfl rfl rfl rfl

/-- C5 counterexample: a forced refresh whose network call raises does NOT
leave the previously stored snapshot untouched — the refresh flow deleted
it before fetching, so the user's prior cache file is gone. -/
theorem C5_counterexample :
    stSnapG.cache "u" = some (.snapshot 0 [tweetA]) ∧
    (Gemini.refresh_tweets apiExnG 1 stSnapG).1 = false ∧
    (Gemini.refresh_tweets apiExnG 1 stSnapG).2.1.cache "u" = none := by
  exact ⟨rfl, rfl, rfl⟩

/-- C6: when the user and tweet lookups succeed with a non-empty batch, the
multi-modal fetch returns successfully (no exception can escape: every
download outcome is handled), keeps one normalized post per raw post, and a
post all of whose media downloads fail keeps an empty media list. -/
theorem C6_download_failure_nonfatal
    (api : GeminiApi) (st : GState) (u : String) (now : Int) (uid : Nat)
    (raws : List RawTweet)
    (h0 : st.cache u = none)
    (h1 : api.getUser u = .ok (some uid))
    (h2 : api.getUsersTweets uid = .ok raws)
    (h3 : raws.isEmpty = false) :
    (Gemini.fetch_tweets api now st u false).1 = true ∧
    (Gemini.fetch_tweets api now st u false).2.1.tweets
      = raws.map (normalize_tweet api.dl api.mediaLookup) ∧
    ((Gemini.fetch_tweets api now st u false).2.1.tweets).length = raws.length ∧
    ∀ t ∈ raws,
      (∀ url ∈ tweet_media_urls api.mediaLookup t, api.dl url ≠ some 200) →
        (normalize_tweet api.dl api.mediaLookup t).media = [] := by
  have hunf := fetch_unfold_fresh api now st u false
    (Or.inr (Or.inl (by rw [h0]; rfl)))
  refine ⟨?_, ?_, ?_, ?_⟩
  · rw [hunf]; simp [Gemini.fetch_fresh, h1, h2, h3]
  · rw [hunf]; simp [Gemini.fetch_fresh, h1, h2, h3]
  · rw [hunf]; simp [Gemini.fetch_fresh, h1, h2, h3]
  · intro t _ hfail
    simp only [normalize_tweet]
    refine List.filterMap_eq_nil_iff.mpr ?_
    intro url hurl
    have hne := hfail url hurl
    cases hd : api.dl url with
    | none => simp [download_media]
    | some code =>
      rw [hd] at hne
      have hcode : code ≠ 200 := fun hcc => hne (by rw [hcc])
      simp [download_media, hcode]

/-- C6 witness: the theorem applied to the three-tweet scenario in which
the second post's only media download is answered with HTTP 500. -/
theorem C6_witness :
    (Gemini.fetch_tweets apiC6 0 emptyG "u" false).1 = true ∧
    (Gemini.fetch_tweets apiC6 0 emptyG "u" false).2.1.tweets
      = rawsC6.map (normalize_tweet apiC6.dl apiC6.mediaLookup) ∧
    ((Gemini.fetch_tweets apiC6 0 emptyG "u" false).2.1.tweets).length
      = rawsC6.length ∧
    ∀ t ∈ rawsC6,
      (∀ url ∈ tweet_media_urls apiC6.mediaLookup t, apiC6.dl url ≠ some 200) →
        (normalize_tweet apiC6.dl apiC6.mediaLookup t).media = [] :=
  C6_download_failure_nonfatal apiC6 emptyG "u" 0 9 rawsC6 rfl rfl rfl rfl

/-- C10: every path recorded in a normalized post's media list is the one
path determined by the post id alone, so several attachments of one post
can only produce that single path repeated — each successful download
overwrote the previous file. -/
theorem C10_single_media_path (dl : String → Option Nat)
    (lookup : Nat → Option Media) (t : RawTweet) (p : String)
    (hp : p ∈ (normalize_tweet dl lookup t).media) :
    p = media_path t.id := by
  simp only [normalize_tweet] at hp
  obtain ⟨url, -, hdl⟩ := List.mem_filterMap.mp hp
  cases hd : dl url with
  | none => rw [hd] at hdl; simp [download_media] at hdl
  | some code =>
    rw [hd] at hdl
    by_cases hc : code = 200
    · rw [hc] at hdl
      simp [download_media] at hdl
      exact hdl.symm
    · simp [download_media, hc] at hdl

/-- C10 witness: a post with two attachments whose downloads both succeed
ends with its single id-derived path recorded twice, and the theorem
applied to the first entry. -/
theorem C10_witness :
    (normalize_tweet dlAll200 lookupC10 rawC10).media
      = [media_path 7, media_path 7] ∧
    media_path 7 = media_path rawC10.id :=
  ⟨rfl, C10_single_media_path dlAll200 lookupC10 rawC10 (media_path 7)
    (List.Mem.head _)⟩

/-- C7 (amended): with an empty post collection both analyse routines
return early after a warning — the prompt is never built and the backend is
invoked ZERO times, not once; with a non-empty collection the request is
built and the backend is invoked exactly once. -/
theorem C7_empty_posts_backend_calls
    (fs pj : String → Option String) (u q m : String) (http : HttpResult)
    (tweets : List Tweet) (otweets : List OTweet)
    (h1 : tweets ≠ []) (h2 : otweets ≠ []) :
    (Gemini.analyse_with_gemini fs u q []).1 = 0 ∧
    (Gemini.analyse_with_gemini fs u q tweets).1 = 1 ∧
    (Gemini.analyse_with_gemini fs u q tweets).2
      = some ⟨build_prompt u tweets q, gemini_images fs tweets⟩ ∧
    (Openrouter.analyse_with_openrouter pj m u q [] http).1 = 0 ∧
    (Openrouter.analyse_with_openrouter pj m u q otweets http).1 = 1 ∧
    (Openrouter.analyse_with_openrouter pj m u q otweets http).2.1
      = some (build_openrouter_payload m u q otweets) := by
  have ht : tweets.isEmpty = false := by
    cases tweets with
    | nil => exact absurd rfl h1
    | cons a l => rfl
  have ho : otweets.isEmpty = false := by
    cases otweets with
    | nil => exact absurd rfl h2
    | cons a l => rfl
  refine ⟨rfl, ?_, ?_, rfl, ?_, ?_⟩ <;>
    simp [Gemini.analyse_with_gemini, Openrouter.analyse_with_openrouter, ht, ho]

/-- C7 witness: the theorem applied to a one-element post collection. -/
theorem C7_witness :
    (Gemini.analyse_with_gemini (fun _ => none) "user" "q" []).1 = 0 ∧
    (Gemini.analyse_with_gemini (fun _ => none) "user" "q" [tweetA]).1 = 1 ∧
    (Gemini.analyse_with_gemini (fun _ => none) "user" "q" [tweetA]).2
      = some ⟨build_prompt "user" [tweetA] "q",
              gemini_images (fun _ => none) [tweetA]⟩ ∧
    (Openrouter.analyse_with_openrouter (fun _ => none) "m" "user" "q" []
        (.resp 200 "b")).1 = 0 ∧
    (Openrouter.analyse_with_openrouter (fun _ => none) "m" "user" "q" [otweetA]
        (.resp 200 "b")).1 = 1 ∧
    (Openrouter.analyse_with_openrouter (fun _ => none) "m" "user" "q" [otweetA]
        (.resp 200 "b")).2.1
      = some (build_openrouter_payload "m" "user" "q" [otweetA]) :=
  C7_empty_posts_backend_calls (fun _ => none) (fun _ => none) "user" "q" "m"
    (.resp 200 "b") [tweetA] [otweetA] (by simp) (by simp)

/-- C7 counterexample: on an empty post collection the backend is invoked
zero times, refuting the claim that it is invoked exactly once. -/
theorem C7_counterexample :
    (Gemini.analyse_with_gemini (fun _ => none) "user" "q" []).1 = 0 ∧
    (Gemini.analyse_with_gemini (fun _ => none) "user" "q" []).1 ≠ 1 ∧
    (Openrouter.analyse_with_openrouter (fun _ => none) "m" "user" "q" []
        (.resp 200 "b")).1 = 0 ∧
    (Openrouter.analyse_with_openrouter (fun _ => none) "m" "user" "q" []
        (.resp 200 "b")).1 ≠ 1 := by
  exact ⟨rfl, by decide, rfl, by decide⟩

/-- C8: once a request has been sent (non-empty posts), a non-200 response
becomes a failure carrying exactly that status code and body — never an
analysis —, a raised request exception becomes a caught error result, and a
200 response whose body does not parse into a first-choice message becomes
a caught error result as well: nothing raises past the backend call. -/
theorem C8_non200_failure
    (pj : String → Option String) (m u q body e : String)
    (tweets : List OTweet) (status : Nat)
    (hne : tweets ≠ []) (hs : status ≠ 200) :
    (Openrouter.analyse_with_openrouter pj m u q tweets (.resp status body)).2.2
      = .httpError status body ∧
    (∀ c, (Openrouter.analyse_with_openrouter pj m u q tweets
      (.resp status body)).2.2 ≠ .analysis c) ∧
    (Openrouter.analyse_with_openrouter pj m u q tweets (.exn e)).2.2 = .err e ∧
    (pj body = none →
      (Openrouter.analyse_with_openrouter pj m u q tweets (.resp 200 body)).2.2
        = .err "malformed response") := by
  have ht : tweets.isEmpty = false := by
    cases tweets with
    | nil => exact absurd rfl hne
    | cons a l => rfl
  refine ⟨?_, ?_, ?_, ?_⟩
  · simp [Openrouter.analyse_with_openrouter, ht, hs]
  · intro c
    simp [Openrouter.analyse_with_openrouter, ht, hs]
  · simp [Openrouter.analyse_with_openrouter, ht]
  · intro hpj
    simp [Openrouter.analyse_with_openrouter, ht, hpj]

/-- C8 witness: the theorem applied to the spec scenario — HTTP 429 with
body rate limited. -/
theorem C8_witness :
    (Openrouter.analyse_with_openrouter (fun _ => none) "m" "user" "q" [otweetA]
        (.resp 429 "rate limited")).2.2 = .httpError 429 "rate limited" ∧
    (∀ c, (Openrouter.analyse_with_openrouter (fun _ => none) "m" "user" "q"
        [otweetA] (.resp 429 "rate limited")).2.2 ≠ .analysis c) ∧
    (Openrouter.analyse_with_openrouter (fun _ => none) "m" "user" "q" [otweetA]
        (.exn "timeout")).2.2 = .err "timeout" ∧
    ((fun _ => none : String → Option String) "rate limited" = none →
      (Openrouter.analyse_with_openrouter (fun _ => none) "m" "user" "q"
        [otweetA] (.resp 200 "rate limited")).2.2 = .err "malformed response") :=
  C8_non200_failure (fun _ => none) "m" "user" "q" "rate limited" "timeout"
    [otweetA] 429 (by simp) (by decide)

/-- C9: prompt construction is a pure function of (username, posts,
question) plus the fixed model configuration — two builds from equal
inputs yield equal request payloads, byte for byte, in both variants. -/
theorem C9_prompt_deterministic
    (fs : String → Option String) (u1 u2 q1 q2 m1 m2 : String)
    (t1 t2 : List Tweet) (o1 o2 : List OTweet)
    (hu : u1 = u2) (hq : q1 = q2) (hm : m1 = m2) (ht : t1 = t2) (ho : o1 = o2) :
    build_prompt u1 t1 q1 = build_prompt u2 t2 q2 ∧
    gemini_images fs t1 = gemini_images fs t2 ∧
    build_openrouter_payload m1 u1 q1 o1 = build_openrouter_payload m2 u2 q2 o2 := by
  subst hu hq hm ht ho
  exact ⟨rfl, rfl, rfl⟩

/-- C9 witness: the theorem applied to one concrete input pair. -/
theorem C9_witness :
    build_prompt "user" [tweetA] "q" = build_prompt "user" [tweetA] "q" ∧
    gemini_images (fun _ => none) [tweetA]
      = gemini_images (fun _ => none) [tweetA] ∧
    build_openrouter_payload "m" "user" "q" [otweetA]
      = build_openrouter_payload "m" "user" "q" [otweetA] :=
  C9_prompt_deterministic (fun _ => none) "user" "user" "q" "q" "m" "m"
    [tweetA] [tweetA] [otweetA] [otweetA] rfl rfl rfl rfl rfl

/-! Scanner lemmas for the byte-level cache-write model (claim C4). -/

theorem scanL_nil (s : ScanSt) : scanL s [] = s := rfl

theorem scanL_cons (s : ScanSt) (c : Char) (w : List Char) :
    scanL s (c :: w) = scanL (scan1 s c) w := rfl

theorem scanL_append (s : ScanSt) (a b : List Char) :
    scanL s (a ++ b) = scanL (scanL s a) b :=
  List.foldl_append ..

theorem scan1_plain (c : Char) (h : PlainC c) (d : Nat) :
    scan1 ⟨false, false, d⟩ c = ⟨false, false, d⟩ := by
  obtain ⟨h1, h2, h3, h4, h5⟩ := h
  simp [scan1, h1, h2, h3, h4, h5]

theorem neutral_nil : Neutral [] :=
  ⟨fun _ => rfl, fun d k => by simp [scanL]⟩

theorem neutral_of_plain (w : List Char) (h : ∀ c ∈ w, PlainC c) : Neutral w := by
  induction w with
  | nil => exact neutral_nil
  | cons c w ih =>
    have hc := h c (List.mem_cons_self c w)
    have hw := ih (fun x hx => h x (List.mem_cons_of_mem c hx))
    constructor
    · intro d
      rw [scanL_cons, scan1_plain c hc d]
      exact hw.1 d
    · intro d k
      cases k with
      | zero => simp [scanL]
      | succ k =>
        rw [List.take_succ_cons, scanL_cons, scan1_plain c hc d]
        exact hw.2 d k

theorem neutral_append {a b : List Char} (ha : Neutral a) (hb : Neutral b) :
    Neutral (a ++ b) := by
  constructor
  · intro d
    rw [scanL_append, ha.1 d, hb.1 d]
  · intro d k
    rw [List.take_append_eq_append_take, scanL_append]
    by_cases hk : k ≤ a.length
    · rw [Nat.sub_eq_zero_of_le hk, List.take_zero, scanL_nil]
      exact ha.2 d k
    · rw [List.take_of_length_le (le_of_not_le hk), ha.1 d]
      exact hb.2 d (k - a.length)

theorem strBody_nil : StrBody [] :=
  ⟨fun _ => rfl, fun d k => by simp [scanL]⟩

theorem strBody_append {a b : List Char} (ha : StrBody a) (hb : StrBody b) :
    StrBody (a ++ b) := by
  constructor
  · intro d
    rw [scanL_append, ha.1 d, hb.1 d]
  · intro d k
    rw [List.take_append_eq_append_take, scanL_append]
    by_cases hk : k ≤ a.length
    · rw [Nat.sub_eq_zero_of_le hk, List.take_zero, scanL_nil]
      exact ha.2 d k
    · rw [List.take_of_length_le (le_of_not_le hk), ha.1 d]
      exact hb.2 d (k - a.length)

theorem strBody_pair (x : Char) : StrBody ['\\', x] := by
  constructor
  · intro d
    rfl
  · intro d k
    match k with
    | 0 => rfl
    | 1 => rfl
    | (j + 2) =>
      rw [List.take_of_length_le
        (by simp only [List.length_cons, List.length_nil]; omega)]
      rfl

theorem strBody_single (c : Char) (h1 : c ≠ '"') (h2 : c ≠ '\\') : StrBody [c] := by
  have hs : ∀ d, scan1 ⟨true, false, d⟩ c = ⟨true, false, d⟩ := by
    intro d
    simp [scan1, h1, h2]
  constructor
  · intro d
    rw [scanL_cons, hs d, scanL_nil]
  · intro d k
    cases k with
    | zero => rfl
    | succ k =>
      have ht : List.take (k + 1) [c] = [c] :=
        List.take_of_length_le (by simp)
      rw [ht, scanL_cons, hs d, scanL_nil]

theorem strBody_escChar (c : Char) : StrBody (escChar c) := by
  unfold escChar
  split_ifs with h1 h2 h3 h4 h5
  · exact strBody_pair '"'
  · exact strBody_pair '\\'
  · exact strBody_pair 'n'
  · exact strBody_pair 't'
  · exact strBody_pair 'r'
  · exact strBody_single c h1 h2

theorem strBody_escaped_list (l : List Char) : StrBody ((l.map escChar).flatten) := by
  induction l with
  | nil => exact strBody_nil
  | cons c l ih =>
    rw [List.map_cons, List.flatten_cons]
    exact strBody_append (strBody_escChar c) ih

theorem neutral_jStr (s : String) : Neutral (jStr s) := by
  have hb := strBody_escaped_list s.data
  have hopen : ∀ d : Nat, scan1 ⟨false, false, d⟩ '"' = ⟨true, false, d⟩ :=
    fun _ => rfl
  have hclose : ∀ d : Nat, scan1 ⟨true, false, d⟩ '"' = ⟨false, false, d⟩ :=
    fun _ => rfl
  constructor
  · intro d
    show scanL ⟨false, false, d⟩
      ('"' :: ((s.data.map escChar).flatten ++ ['"'])) = ⟨false, false, d⟩
    rw [scanL_cons, hopen d, scanL_append, hb.1 d, scanL_cons, hclose d, scanL_nil]
  · intro d k
    cases k with
    | zero => simp [scanL]
    | succ k =>
      show d ≤ (scanL ⟨false, false, d⟩
        (('"' :: ((s.data.map escChar).flatten ++ ['"'])).take (k + 1))).depth
      rw [List.take_succ_cons, scanL_cons, hopen d,
        List.take_append_eq_append_take, scanL_append]
      by_cases hk : k ≤ ((s.data.map escChar).flatten).length
      · rw [Nat.sub_eq_zero_of_le hk, List.take_zero, scanL_nil, hb.2 d k]
      · rw [List.take_of_length_le (le_of_not_le hk), hb.1 d]
        cases hj : k - ((s.data.map escChar).flatten).length with
        | zero => simp [scanL]
        | succ j =>
          have ht : List.take (j + 1) ['"'] = ['"'] :=
            List.take_of_length_le (by simp)
          rw [ht, scanL_cons, hclose d, scanL_nil]

theorem neutral_delim (o c : Char) (ho : o = '{' ∨ o = '[')
    (hc : c = '}' ∨ c = ']') (w : List Char) (h : Neutral w) :
    Neutral (o :: w ++ [c]) := by
  have hso : ∀ d : Nat, scan1 ⟨false, false, d⟩ o = ⟨false, false, d + 1⟩ := by
    intro d
    rcases ho with rfl | rfl <;> rfl
  have hsc : ∀ d : Nat, scan1 ⟨false, false, d + 1⟩ c = ⟨false, false, d⟩ := by
    intro d
    rcases hc with rfl | rfl <;> rfl
  constructor
  · intro d
    rw [List.cons_append, scanL_cons, hso d, scanL_append, h.1 (d + 1),
      scanL_cons, hsc d, scanL_nil]
  · intro d k
    cases k with
    | zero => simp [scanL]
    | succ k =>
      rw [List.cons_append, List.take_succ_cons, scanL_cons, hso d,
        List.take_append_eq_append_take, scanL_append]
      by_cases hk : k ≤ w.length
      · rw [Nat.sub_eq_zero_of_le hk, List.take_zero, scanL_nil]
        exact le_trans (Nat.le_succ d) (h.2 (d + 1) k)
      · rw [List.take_of_length_le (le_of_not_le hk), h.1 (d + 1)]
        cases hj : k - w.length with
        | zero =>
          rw [List.take_zero, scanL_nil]
          exact Nat.le_succ d
        | succ j =>
          have ht : List.take (j + 1) [c] = [c] :=
            List.take_of_length_le (by simp)
          rw [ht, scanL_cons, hsc d, scanL_nil]

theorem neutral_joinSep (sep : List Char) (hs : Neutral sep)
    (xs : List (List Char)) (h : ∀ x ∈ xs, Neutral x) :
    Neutral (joinSep sep xs) := by
  induction xs with
  | nil => exact neutral_nil
  | cons x xs ih =>
    cases xs with
    | nil => exact h x (List.mem_cons_self x [])
    | cons y t =>
      have hx := h x (List.mem_cons_self x (y :: t))
      have hrest := ih (fun z hz => h z (List.mem_cons_of_mem x hz))
      exact neutral_append (neutral_append hx hs) hrest

theorem neutral_commaSep : Neutral commaSep :=
  neutral_of_plain _ (by decide)

theorem neutral_colonSep : Neutral colonSep :=
  neutral_of_plain _ (by decide)

theorem digitChar_plain (m : Nat) (h : m < 10) : PlainC (Nat.digitChar m) := by
  interval_cases m <;> decide

theorem natChars_plain (n : Nat) : ∀ c ∈ natChars n, PlainC c := by
  induction n using Nat.strong_induction_on with
  | _ n ih =>
    rw [natChars]
    by_cases h : n < 10
    · rw [if_pos h]
      intro c hc
      rw [List.mem_singleton] at hc
      subst hc
      exact digitChar_plain n h
    · rw [if_neg h]
      intro c hc
      rcases List.mem_append.mp hc with h1 | h2
      · exact ih (n / 10) (Nat.div_lt_self (by omega) (by omega)) c h1
      · rw [List.mem_singleton] at h2
        subst h2
        exact digitChar_plain _ (Nat.mod_lt _ (by omega))

theorem neutral_natChars (n : Nat) : Neutral (natChars n) :=
  neutral_of_plain _ (natChars_plain n)

theorem neutral_jField (k : String) (v : List Char) (hv : Neutral v) :
    Neutral (jField k v) :=
  neutral_append (neutral_append (neutral_jStr k) neutral_colonSep) hv

theorem neutral_inBraces (w : List Char) (h : Neutral w) : Neutral (inBraces w) :=
  neutral_delim '{' '}' (Or.inl rfl) (Or.inl rfl) w h

theorem neutral_inBrackets (w : List Char) (h : Neutral w) : Neutral (inBrackets w) :=
  neutral_delim '[' ']' (Or.inr rfl) (Or.inr rfl) w h

theorem neutral_jMetrics (m : Metrics) : Neutral (jMetrics m) := by
  refine neutral_inBraces _ (neutral_joinSep _ neutral_commaSep _ ?_)
  intro x hx
  simp only [List.mem_cons, List.not_mem_nil, or_false] at hx
  rcases hx with rfl | rfl | rfl <;>
    exact neutral_jField _ _ (neutral_natChars _)

theorem neutral_jTweet (t : Tweet) : Neutral (jTweet t) := by
  refine neutral_inBraces _ (neutral_joinSep _ neutral_commaSep _ ?_)
  intro x hx
  simp only [List.mem_cons, List.not_mem_nil, or_false] at hx
  rcases hx with rfl | rfl | rfl | rfl | rfl
  · exact neutral_jField _ _ (neutral_natChars _)
  · exact neutral_jField _ _ (neutral_jStr _)
  · exact neutral_jField _ _ (neutral_jStr _)
  · exact neutral_jField _ _ (neutral_jMetrics _)
  · refine neutral_jField _ _ (neutral_inBrackets _
      (neutral_joinSep _ neutral_commaSep _ ?_))
    intro y hy
    obtain ⟨s, -, rfl⟩ := List.mem_map.mp hy
    exact neutral_jStr s

theorem neutral_cache_body (ts : String) (tweets : List Tweet) :
    Neutral (joinSep commaSep
      [jField "timestamp" (jStr ts),
       jField "tweets" (inBrackets (joinSep commaSep (tweets.map jTweet)))]) := by
  refine neutral_joinSep _ neutral_commaSep _ ?_
  intro x hx
  simp only [List.mem_cons, List.not_mem_nil, or_false] at hx
  rcases hx with rfl | rfl
  · exact neutral_jField _ _ (neutral_jStr _)
  · refine neutral_jField _ _ (neutral_inBrackets _
      (neutral_joinSep _ neutral_commaSep _ ?_))
    intro y hy
    obtain ⟨t, -, rfl⟩ := List.mem_map.mp hy
    exact neutral_jTweet t

theorem jsonComplete_wrap (w : List Char) (h : Neutral w) :
    jsonComplete ('{' :: w ++ ['}']) = true := by
  have hN := neutral_delim '{' '}' (Or.inl rfl) (Or.inl rfl) w h
  have hend := hN.1 0
  simp [jsonComplete, scanInit] at hend ⊢
  rw [hend]

theorem jsonComplete_take_wrap (w : List Char) (h : Neutral w) (k : Nat)
    (hk : k < ('{' :: w ++ ['}']).length) :
    jsonComplete (('{' :: w ++ ['}']).take k) = false := by
  cases k with
  | zero => rfl
  | succ k =>
    have hk2 : k ≤ w.length := by
      simp only [List.cons_append, List.length_cons, List.length_append,
        List.length_nil] at hk
      omega
    have htake : (w ++ ['}']).take k = w.take k := by
      rw [List.take_append_eq_append_take, Nat.sub_eq_zero_of_le hk2,
        List.take_zero, List.append_nil]
    rw [List.cons_append, List.take_succ_cons, htake]
    have hdepth : 1 ≤ (scanL ⟨false, false, 1⟩ (w.take k)).depth := h.2 1 k
    have hne : scanL ⟨false, false, 1⟩ (w.take k) ≠ scanInit := by
      intro he
      rw [he] at hdepth
      simp [scanInit] at hdepth
    unfold jsonComplete
    rw [scanL_cons]
    have hs : scan1 scanInit '{' = ⟨false, false, 1⟩ := rfl
    rw [hs, beq_eq_false_iff_ne.mpr hne, Bool.and_false]

/-- C4 (amended): save_tweets_to_cache truncates the cache file in place
and writes the new serialization directly (no temp path and rename), so a
write that fails after k bytes has destroyed the prior snapshot and leaves
exactly the k-byte prefix on disk; that truncated prefix, however, is never
itself a complete JSON document, so a partial write is never visible as a
valid snapshot, while a completed write is a parseable document. -/
theorem C4_truncated_write_invalid (ts : String) (tweets : List Tweet) (k : Nat)
    (hk : k < (serializeCache ts tweets).length) :
    Gemini.save_tweets_to_cache_bytes ts tweets (some k)
      = (serializeCache ts tweets).take k ∧
    jsonComplete (Gemini.save_tweets_to_cache_bytes ts tweets (some k)) = false ∧
    jsonComplete (Gemini.save_tweets_to_cache_bytes ts tweets none) = true := by
  have hbody := neutral_cache_body ts tweets
  exact ⟨rfl, jsonComplete_take_wrap _ hbody k hk, jsonComplete_wrap _ hbody⟩

/-- C4 witness: the theorem applied to a concrete snapshot with the write
failing after 3 bytes. -/
theorem C4_witness :
    Gemini.save_tweets_to_cache_bytes "t" [] (some 3)
      = (serializeCache "t" []).take 3 ∧
    jsonComplete (Gemini.save_tweets_to_cache_bytes "t" [] (some 3)) = false ∧
    jsonComplete (Gemini.save_tweets_to_cache_bytes "t" [] none) = true :=
  C4_truncated_write_invalid "t" [] 3 (by decide)

/-- C4 counterexample: a previously valid cache file (the completed
serialization of an older snapshot) is destroyed by a save whose write
fails immediately: the file afterwards is empty — neither the prior valid
content nor a valid snapshot — refuting the claim that a failed write
cannot corrupt a previously valid cache. -/
theorem C4_counterexample :
    jsonComplete (serializeCache "t1" []) = true ∧
    Gemini.save_tweets_to_cache_bytes "t2" [] (some 0) = [] ∧
    jsonComplete [] = false ∧
    Gemini.save_tweets_to_cache_bytes "t2" [] (some 0) ≠ serializeCache "t1" [] := by
  refine ⟨by decide, rfl, rfl, by decide⟩




